import Mathlib

/-!
Shallow embedding of `src/ifx_predictor.py`: a Streamlit form that loads a
fitted scaler and a fitted binary classifier from disk, turns the thirteen
user-entered biomarker values into a fixed-order float vector, scales it,
predicts, and stores a label/probability pair in the session state.

Modelling conventions:
* Python floats are modelled as rationals (`ℚ`); floating-point special
  values (NaN, inf) are out of scope.
* The scaler and the classifier are opaque fitted artifacts; they are
  modelled as records of functions that may fail (`Except String _`),
  mirroring the fact that any of their methods can raise.
* `pd.DataFrame([inputs])[feature_order].astype(float)` (line 127 of the
  source) is modelled as column selection over an association list
  (pandas raises `KeyError` listing the missing columns; it silently drops
  extra columns) followed by per-value float coercion (raising on the
  first value that is not numeric).
* Exceptions raised inside the `try` block of the button handler are
  modelled with `Except`; the single `except Exception` handler at
  lines 145-146 corresponds to converting the error into a displayed
  error value while leaving the session state untouched.
* Calls into the scaler/classifier are recorded in an event trace so that
  "the normalizer/classifier was never invoked" is a provable statement.
-/

namespace IFX

/-- A value supplied for a feature key: either a finite numeric value or a
non-numeric token (e.g. a string) that `astype(float)` cannot coerce. -/
inductive Value where
  | num (q : ℚ)
  | nonNumeric (s : String)
  deriving DecidableEq, Repr

/-- `astype(float)` on a single value: numeric values coerce, non-numeric
tokens raise. -/
def Value.toFloat : Value → Option ℚ
  | .num q => some q
  | .nonNumeric _ => none

/-- The input mapping built by the sidebar (a Python dict, keyed by the
feature names). -/
abbrev FeatureMap : Type := List (String × Value)

/-- Python dict lookup. -/
def lookup : FeatureMap → String → Option Value
  | [], _ => none
  | (k', v) :: rest, k => if k' = k then some v else lookup rest k

/-- Lines 120-124 of the source: the fixed feature order contract. -/
def feature_order : List String :=
  ["Fg", "CDAI", "APTT", "eGFR", "D-Dimer",
   "ALB", "Dose", "WBC", "Age", "AST",
   "ALT", "ADA", "Lesion site"]

/-- The distinct exceptions that can be raised inside the `try` block of
the button handler (lines 118-143); each constructor records the raise
site and the carried cause. -/
inductive PipeErr where
  | keyError (missing : List String)
  | typeCoercion (v : Value)
  | transformError (cause : String)
  | probaError (cause : String)
  | predictError (cause : String)
  deriving DecidableEq, Repr

/-- The fitted normalizer artifact (a `MinMaxScaler`): its `transform`
method, which may raise. -/
structure Scaler where
  transform : List ℚ → Except String (List ℚ)

/-- The fitted binary classifier artifact: its `predict` method (returning
the class of the single row) and its `predict_proba` method (returning the
`(proba[0], proba[1])` row), each of which may raise. -/
structure Classifier where
  predict : List ℚ → Except String ℤ
  predict_proba : List ℚ → Except String (ℚ × ℚ)

/-- `pd.DataFrame([inputs])[feature_order]`: select the contracted columns
in the fixed order; pandas raises a `KeyError` naming every requested
column that is missing, and silently ignores extra columns. -/
def selectColumns (inputs : FeatureMap) : Except PipeErr (List Value) :=
  match feature_order.filter (fun k => (lookup inputs k).isNone) with
  | [] => .ok (feature_order.filterMap (lookup inputs))
  | missing => .error (.keyError missing)

/-- `.astype(float)`: coerce every selected value, raising on the first
value that is not numeric. -/
def coerceAll : List Value → Except PipeErr (List ℚ)
  | [] => .ok []
  | v :: rest =>
    match v.toFloat with
    | none => .error (.typeCoercion v)
    | some q =>
      match coerceAll rest with
      | .error e => .error e
      | .ok qs => .ok (q :: qs)

/-- Line 127 of the source:
`input_data = pd.DataFrame([inputs])[feature_order].astype(float)`. -/
def input_data (inputs : FeatureMap) : Except PipeErr (List ℚ) :=
  match selectColumns inputs with
  | .error e => .error e
  | .ok vs => coerceAll vs

/-- Line 137 of the source:
`probability = proba[1] if prediction == 1 else proba[0]`. -/
def probability (prediction : ℤ) (proba : ℚ × ℚ) : ℚ :=
  if prediction = 1 then proba.2 else proba.1

/-- Line 141 of the source: the user-facing class label,
`"治疗浓度 (≥3 μg/ml)" if prediction == 1 else "低浓度 (<3 μg/ml)"`.
(The spec's "therapeutic concentration" / "subtherapeutic concentration"
labels are these two Chinese strings.) -/
def classLabel (prediction : ℤ) : String :=
  if prediction = 1 then "治疗浓度 (≥3 μg/ml)" else "低浓度 (<3 μg/ml)"

/-- The dict stored in `st.session_state.prediction` (lines 140-143):
keys `'class'` and `'probability'`. -/
structure PredictionResult where
  cls : String
  probability : ℚ
  deriving DecidableEq, Repr

/-- One call made to a fitted artifact, with its argument. -/
inductive CallEvent where
  | transformCall (arg : List ℚ)
  | probaCall (arg : List ℚ)
  | predictCall (arg : List ℚ)
  deriving DecidableEq, Repr

/-- Lines 119-143 of the source: the body of the `try` block. Returns the
result (or the first exception raised) together with the trace of calls
made to the scaler and the classifier, in order. -/
def run (inputs : FeatureMap) (scaler : Scaler) (model : Classifier) :
    Except PipeErr PredictionResult × List CallEvent :=
  match input_data inputs with
  | .error e => (.error e, [])
  | .ok data =>
    match scaler.transform data with
    | .error c => (.error (.transformError c), [.transformCall data])
    | .ok scaled_data =>
      match model.predict_proba scaled_data with
      | .error c =>
          (.error (.probaError c), [.transformCall data, .probaCall scaled_data])
      | .ok proba =>
        match model.predict scaled_data with
        | .error c =>
            (.error (.predictError c),
             [.transformCall data, .probaCall scaled_data, .predictCall scaled_data])
        | .ok prediction =>
            (.ok ⟨classLabel prediction, probability prediction proba⟩,
             [.transformCall data, .probaCall scaled_data, .predictCall scaled_data])

/-- The structured, displayable errors the app shows via `st.error`. Each
constructor corresponds to one distinct `st.error` site in the source:
the `except FileNotFoundError` branch (line 24, whose fixed message names
both artifact files), the generic `except Exception` branch of
`load_components` (line 27), and the `except Exception` branch of the
button handler (line 146, which wraps the raised exception). -/
inductive DisplayedError where
  | artifactNotFound (id1 id2 : String)
  | artifactLoadError (cause : String)
  | predictionError (cause : PipeErr)
  deriving DecidableEq, Repr

/-- The outcome of one `joblib.load` call on one artifact file: the
deserialized object, a `FileNotFoundError`, or some other exception. -/
inductive LoadOutcome (α : Type) where
  | ok (a : α)
  | fileNotFound
  | corrupt (cause : String)

/-- The storage the loader reads: what `joblib.load` yields for each of
the two configured artifact files. -/
structure Store where
  loadModel : LoadOutcome Classifier
  loadScaler : LoadOutcome Scaler

/-- Lines 18-28 of the source: `load_components` without its cache
decorator. Loads the model first, then the scaler; on
`FileNotFoundError` it shows the fixed message naming both artifact
files and returns `(None, None)`; on any other exception it shows a
generic load-failure message and returns `(None, None)`. -/
def load_components (s : Store) :
    (Option Classifier × Option Scaler) × Option DisplayedError :=
  match s.loadModel with
  | .fileNotFound =>
      ((none, none), some (.artifactNotFound "ifx_ensemble_model.pkl" "ifx_scaler.pkl"))
  | .corrupt c => ((none, none), some (.artifactLoadError c))
  | .ok model =>
    match s.loadScaler with
    | .fileNotFound =>
        ((none, none), some (.artifactNotFound "ifx_ensemble_model.pkl" "ifx_scaler.pkl"))
    | .corrupt c => ((none, none), some (.artifactLoadError c))
    | .ok scaler => ((some model, some scaler), none)

/-- The memoization state of the `@st.cache_resource` decorator on
`load_components`: the cached return value, plus a count of how many
times the underlying function body (the deserialization) has run. -/
structure CacheState where
  cached : Option (Option Classifier × Option Scaler)
  loadCount : ℕ

/-- The `@st.cache_resource` decorator (line 17), modelled by its
documented memoize-once semantics: return the cached value if present,
otherwise run the function body once and cache its result. -/
def cachedLoad (store : Store) (st : CacheState) :
    (Option Classifier × Option Scaler) × CacheState :=
  match st.cached with
  | some r => (r, st)
  | none =>
    let r := (load_components store).1
    (r, ⟨some r, st.loadCount + 1⟩)

/-- `n` successive calls of the cached loader within one process,
collecting the value each call returns. -/
def loadN (store : Store) : ℕ → CacheState → List (Option Classifier × Option Scaler) × CacheState
  | 0, st => ([], st)
  | n + 1, st =>
    let (r, st') := cachedLoad store st
    let (rs, st'') := loadN store n st'
    (r :: rs, st'')

/-- Lines 31-32 of the source: the session state, holding the stored
prediction (initially `None`). -/
structure SessionState where
  prediction : Option PredictionResult
  deriving DecidableEq, Repr

/-- Lines 115-146 of the source: the button handler, given what
`load_components` returned. If both artifacts are present it runs the
pipeline; on success it stores the result in the session state, on an
exception it leaves the session state untouched and shows the wrapped
error. Returns the new session state and the displayed error, if any. -/
def onPredict (loaded : Option Classifier × Option Scaler)
    (inputs : FeatureMap) (st : SessionState) :
    SessionState × Option DisplayedError :=
  match loaded with
  | (some model, some scaler) =>
    match (run inputs scaler model).1 with
    | .ok r => (⟨some r⟩, none)
    | .error e => (st, some (.predictionError e))
  | _ => (st, none)

/-- Observer: did the pipeline fail with a coercion exception
(`astype(float)` raised)? -/
def isCoercionError : Except PipeErr PredictionResult → Bool
  | .error (.typeCoercion _) => true
  | _ => false

/-- Observer: did the pipeline fail with a `KeyError` from column
selection? -/
def isKeyError : Except PipeErr PredictionResult → Bool
  | .error (.keyError _) => true
  | _ => false

/-- Observer: was the exception raised by the normalizer or the
classifier (as opposed to column selection or coercion)? -/
def isComponentError : PipeErr → Bool
  | .transformError _ => true
  | .probaError _ => true
  | .predictError _ => true
  | _ => false

/-! ### Concrete fixtures -/

/-- A normalizer fixture: the identity transform. -/
def fixtureScaler : Scaler := ⟨fun v => .ok v⟩

/-- A classifier fixture with `predict() = 1` and
`predict_proba() = [0.2, 0.8]`. -/
def fixtureClf : Classifier := ⟨fun _ => .ok 1, fun _ => .ok (1/5, 4/5)⟩

/-- A classifier fixture with `predict() = 1` and
`predict_proba() = [0.3, 0.7]`. -/
def fixtureClf37 : Classifier := ⟨fun _ => .ok 1, fun _ => .ok (3/10, 7/10)⟩

/-- A classifier fixture with `predict() = 0` and
`predict_proba() = [0.9, 0.1]`. -/
def fixtureClf91 : Classifier := ⟨fun _ => .ok 0, fun _ => .ok (9/10, 1/10)⟩

/-- A normalizer fixture whose `transform` always raises. -/
def failScaler : Scaler := ⟨fun _ => .error "boom"⟩

/-- The end-to-end example input of the spec:
`{Fg:3.0, CDAI:300, APTT:20.0, eGFR:75.0, D-Dimer:0.5, ALB:45.0,
Dose:600.0, WBC:7.0, Age:49.0, AST:24.0, ALT:31.5, ADA:4.0,
Lesion site:3}`. -/
def exampleInputs : FeatureMap :=
  [("Fg", .num 3), ("CDAI", .num 300), ("APTT", .num 20), ("eGFR", .num 75),
   ("D-Dimer", .num (1/2)), ("ALB", .num 45), ("Dose", .num 600), ("WBC", .num 7),
   ("Age", .num 49), ("AST", .num 24), ("ALT", .num (63/2)), ("ADA", .num 4),
   ("Lesion site", .num 3)]

/-- The example input with one extra, non-contracted key appended. -/
def extraKeyInputs : FeatureMap := exampleInputs ++ [("Extra", .num 1)]

/-- The thirteen contracted keys supplied in reversed iteration order,
each mapped to the value 2. -/
def scrambledInputs : FeatureMap :=
  [("Lesion site", .num 2), ("ADA", .num 2), ("ALT", .num 2), ("AST", .num 2),
   ("Age", .num 2), ("WBC", .num 2), ("Dose", .num 2), ("ALB", .num 2),
   ("D-Dimer", .num 2), ("eGFR", .num 2), ("APTT", .num 2), ("CDAI", .num 2),
   ("Fg", .num 2)]

/-- The example input with the `Fg` value replaced by a non-numeric
string. -/
def badInputs : FeatureMap :=
  [("Fg", .nonNumeric "abc"), ("CDAI", .num 300), ("APTT", .num 20), ("eGFR", .num 75),
   ("D-Dimer", .num (1/2)), ("ALB", .num 45), ("Dose", .num 600), ("WBC", .num 7),
   ("Age", .num 49), ("AST", .num 24), ("ALT", .num (63/2)), ("ADA", .num 4),
   ("Lesion site", .num 3)]

/-- The example input with the `Fg` entry removed. -/
def missingInputs : FeatureMap :=
  [("CDAI", .num 300), ("APTT", .num 20), ("eGFR", .num 75),
   ("D-Dimer", .num (1/2)), ("ALB", .num 45), ("Dose", .num 600), ("WBC", .num 7),
   ("Age", .num 49), ("AST", .num 24), ("ALT", .num (63/2)), ("ADA", .num 4),
   ("Lesion site", .num 3)]

/-- A store where both artifact files are present (as fixtures). -/
def fixtureStore : Store := ⟨.ok fixtureClf, .ok fixtureScaler⟩

/-- A store where neither artifact file exists. -/
def emptyStore : Store := ⟨.fileNotFound, .fileNotFound⟩

end IFX

namespace IFX

/-! ### Helper lemmas -/

/-- If the selected columns contain a non-numeric value, `astype(float)`
raises a coercion exception. -/
lemma coerceAll_of_mem_nonNumeric {s : String} :
    ∀ vs : List Value, Value.nonNumeric s ∈ vs →
      ∃ w, coerceAll vs = .error (.typeCoercion w) := by
  intro vs
  induction vs with
  | nil => intro h; exact absurd h (List.not_mem_nil _)
  | cons v rest ih =>
    intro hmem
    cases v with
    | nonNumeric t => exact ⟨.nonNumeric t, rfl⟩
    | num q =>
      have hrest : Value.nonNumeric s ∈ rest := by
        rcases List.mem_cons.mp hmem with h | h
        · exact absurd h (by simp)
        · exact h
      obtain ⟨w, hw⟩ := ih hrest
      exact ⟨w, by simp [coerceAll, Value.toFloat, hw]⟩

/-- Column selection only reads the mapping at the thirteen contracted
keys. -/
lemma selectColumns_congr {inputs inputs' : FeatureMap}
    (h : ∀ k ∈ feature_order, lookup inputs k = lookup inputs' k) :
    selectColumns inputs = selectColumns inputs' := by
  unfold selectColumns
  rw [List.filter_congr (fun k hk => by rw [h k hk]),
      List.filterMap_congr (fun k hk => by rw [h k hk])]

/-- The whole pipeline only reads the mapping at the thirteen contracted
keys. -/
lemma run_congr {inputs inputs' : FeatureMap} (scaler : Scaler) (model : Classifier)
    (h : ∀ k ∈ feature_order, lookup inputs k = lookup inputs' k) :
    run inputs scaler model = run inputs' scaler model := by
  unfold run input_data
  rw [selectColumns_congr h]

/-- Reduction of `run` when column selection or coercion raises. -/
lemma run_input_error {inputs : FeatureMap} {e : PipeErr}
    (scaler : Scaler) (model : Classifier)
    (h : input_data inputs = .error e) :
    run inputs scaler model = (.error e, []) := by
  unfold run
  simp only [h]

/-- Reduction of `run` when the normalizer's `transform` raises. -/
lemma run_transform_error {inputs : FeatureMap} {data : List ℚ} {c : String}
    {scaler : Scaler} (model : Classifier)
    (h1 : input_data inputs = .ok data)
    (h2 : scaler.transform data = .error c) :
    run inputs scaler model =
      (.error (.transformError c), [.transformCall data]) := by
  unfold run
  simp only [h1, h2]

/-- Reduction of `run` when `predict_proba` raises. -/
lemma run_proba_error {inputs : FeatureMap} {data scaled : List ℚ} {c : String}
    {scaler : Scaler} {model : Classifier}
    (h1 : input_data inputs = .ok data)
    (h2 : scaler.transform data = .ok scaled)
    (h3 : model.predict_proba scaled = .error c) :
    run inputs scaler model =
      (.error (.probaError c), [.transformCall data, .probaCall scaled]) := by
  unfold run
  simp only [h1, h2, h3]

/-- Reduction of `run` when `predict` raises. -/
lemma run_predict_error {inputs : FeatureMap} {data scaled : List ℚ} {c : String}
    {scaler : Scaler} {model : Classifier} {proba : ℚ × ℚ}
    (h1 : input_data inputs = .ok data)
    (h2 : scaler.transform data = .ok scaled)
    (h3 : model.predict_proba scaled = .ok proba)
    (h4 : model.predict scaled = .error c) :
    run inputs scaler model =
      (.error (.predictError c),
       [.transformCall data, .probaCall scaled, .predictCall scaled]) := by
  unfold run
  simp only [h1, h2, h3, h4]

/-- Reduction of `run` when every step succeeds. -/
lemma run_success {inputs : FeatureMap} {data scaled : List ℚ}
    {scaler : Scaler} {model : Classifier} {proba : ℚ × ℚ} {pred : ℤ}
    (h1 : input_data inputs = .ok data)
    (h2 : scaler.transform data = .ok scaled)
    (h3 : model.predict_proba scaled = .ok proba)
    (h4 : model.predict scaled = .ok pred) :
    run inputs scaler model =
      (.ok ⟨classLabel pred, probability pred proba⟩,
       [.transformCall data, .probaCall scaled, .predictCall scaled]) := by
  unfold run
  simp only [h1, h2, h3, h4]

/-- Reduction of the button handler once the pipeline outcome is known:
an exception is wrapped and displayed, the state untouched. -/
lemma onPredict_error {inputs : FeatureMap} {scaler : Scaler}
    {model : Classifier} {e : PipeErr} (st : SessionState)
    (h : (run inputs scaler model).1 = .error e) :
    onPredict (some model, some scaler) inputs st =
      (st, some (.predictionError e)) := by
  unfold onPredict
  simp only [h]

/-- Reduction of the button handler on pipeline success: the result is
stored. -/
lemma onPredict_ok {inputs : FeatureMap} {scaler : Scaler}
    {model : Classifier} {r : PredictionResult} (st : SessionState)
    (h : (run inputs scaler model).1 = .ok r) :
    onPredict (some model, some scaler) inputs st = (⟨some r⟩, none) := by
  unfold onPredict
  simp only [h]

/-- Once the cache is populated, every further call returns the cached
value and performs no deserialization. -/
lemma loadN_cached (store : Store) (r : Option Classifier × Option Scaler) (c : ℕ) :
    ∀ n, loadN store n ⟨some r, c⟩ = (List.replicate n r, ⟨some r, c⟩) := by
  intro n
  induction n with
  | zero => rfl
  | succ m ih => simp [loadN, cachedLoad, ih, List.replicate]

/-- Whenever column selection and coercion succeed, the first call in the
pipeline's trace is `transform` on exactly the selected, coerced vector. -/
lemma run_trace_head {inputs : FeatureMap} {data : List ℚ}
    (scaler : Scaler) (model : Classifier)
    (h : input_data inputs = .ok data) :
    (run inputs scaler model).2.head? = some (.transformCall data) := by
  cases ht : scaler.transform data with
  | error c => rw [run_transform_error model h ht]; rfl
  | ok scaled =>
    cases hp : model.predict_proba scaled with
    | error c => rw [run_proba_error h ht hp]; rfl
    | ok proba =>
      cases hq : model.predict scaled with
      | error c => rw [run_predict_error h ht hp hq]; rfl
      | ok pred => rw [run_success h ht hp hq]; rfl

/-! ### The claims -/

/-- Claim C1: for every valid thirteen-key feature mapping, the vector
passed to the normalizer's `transform` has its thirteen components in the
fixed order `Fg, CDAI, APTT, eGFR, D-Dimer, ALB, Dose, WBC, Age, AST,
ALT, ADA, Lesion site`, independently of the iteration order of the
mapping (the first call in the trace is `transform` on exactly that
vector). -/
theorem C1_order_invariant (inputs : FeatureMap) (scaler : Scaler) (model : Classifier)
    (f : String → ℚ)
    (h : ∀ k ∈ feature_order, lookup inputs k = some (.num (f k))) :
    (run inputs scaler model).2.head? = some (.transformCall
      [f "Fg", f "CDAI", f "APTT", f "eGFR", f "D-Dimer", f "ALB", f "Dose",
       f "WBC", f "Age", f "AST", f "ALT", f "ADA", f "Lesion site"]) := by
  have h1 := h "Fg" (by decide)
  have h2 := h "CDAI" (by decide)
  have h3 := h "APTT" (by decide)
  have h4 := h "eGFR" (by decide)
  have h5 := h "D-Dimer" (by decide)
  have h6 := h "ALB" (by decide)
  have h7 := h "Dose" (by decide)
  have h8 := h "WBC" (by decide)
  have h9 := h "Age" (by decide)
  have h10 := h "AST" (by decide)
  have h11 := h "ADA" (by decide)
  have h12 := h "ALT" (by decide)
  have h13 := h "Lesion site" (by decide)
  have hdata : input_data inputs = Except.ok
      [f "Fg", f "CDAI", f "APTT", f "eGFR", f "D-Dimer", f "ALB", f "Dose",
       f "WBC", f "Age", f "AST", f "ALT", f "ADA", f "Lesion site"] := by
    simp [input_data, selectColumns, feature_order, h1, h2, h3, h4, h5, h6,
      h7, h8, h9, h10, h11, h12, h13, coerceAll, Value.toFloat]
  exact run_trace_head scaler model hdata

/-- Witness for C1: the thirteen keys supplied in reversed iteration
order still reach the normalizer in the fixed contract order. -/
theorem C1_order_invariant_witness :
    (∀ k ∈ feature_order, lookup scrambledInputs k = some (Value.num 2)) ∧
    (run scrambledInputs fixtureScaler fixtureClf).2.head? =
      some (.transformCall [2, 2, 2, 2, 2, 2, 2, 2, 2, 2, 2, 2, 2]) :=
  ⟨by decide,
   C1_order_invariant scrambledInputs fixtureScaler fixtureClf (fun _ => 2)
     (by decide)⟩

/-- Claim C2: the returned confidence is the probability mass of the
class the classifier actually predicted: `proba[1]` when the predicted
class is 1 and `proba[0]` when it is 0. -/
theorem C2_confidence_selection (inputs : FeatureMap) (scaler : Scaler)
    (model : Classifier) (data scaled : List ℚ) (proba : ℚ × ℚ) (pred : ℤ)
    (h1 : input_data inputs = .ok data)
    (h2 : scaler.transform data = .ok scaled)
    (h3 : model.predict_proba scaled = .ok proba)
    (h4 : model.predict scaled = .ok pred) :
    (run inputs scaler model).1 = Except.ok ⟨classLabel pred, probability pred proba⟩ ∧
    (pred = 1 → probability pred proba = proba.2) ∧
    (pred = 0 → probability pred proba = proba.1) := by
  refine ⟨?_, ?_, ?_⟩
  · rw [run_success h1 h2 h3 h4]
  · intro hp; simp [probability, hp]
  · intro hp; subst hp; simp [probability]

/-- Witness for C2, the spec's first concrete case: with `predict() = 1`
and `predict_proba() = [0.3, 0.7]`, the stored confidence is `0.7`, not
`0.3`. -/
theorem C2_confidence_selection_witness :
    (run exampleInputs fixtureScaler fixtureClf37).1 =
      Except.ok ⟨classLabel 1, probability 1 (3/10, 7/10)⟩ ∧
    probability 1 (3/10, 7/10) = 7/10 :=
  ⟨(C2_confidence_selection exampleInputs fixtureScaler fixtureClf37
      _ _ (3/10, 7/10) 1 rfl rfl rfl rfl).1,
   (C2_confidence_selection exampleInputs fixtureScaler fixtureClf37
      _ _ (3/10, 7/10) 1 rfl rfl rfl rfl).2.1 rfl⟩

/-- Claim C3: predicted class 1 maps exactly to the therapeutic label,
predicted class 0 maps exactly to the subtherapeutic label, and every
successful pipeline result carries one of these two labels and no
other. -/
theorem C3_label_mapping :
    classLabel 1 = "治疗浓度 (≥3 μg/ml)" ∧
    classLabel 0 = "低浓度 (<3 μg/ml)" ∧
    ∀ (inputs : FeatureMap) (scaler : Scaler) (model : Classifier)
      (r : PredictionResult), (run inputs scaler model).1 = Except.ok r →
      r.cls = "治疗浓度 (≥3 μg/ml)" ∨ r.cls = "低浓度 (<3 μg/ml)" := by
  refine ⟨rfl, rfl, ?_⟩
  intro inputs scaler model r h
  cases hd : input_data inputs with
  | error e => rw [run_input_error scaler model hd] at h; exact absurd h (by simp)
  | ok data =>
    cases ht : scaler.transform data with
    | error c => rw [run_transform_error model hd ht] at h; exact absurd h (by simp)
    | ok sd =>
      cases hp : model.predict_proba sd with
      | error c => rw [run_proba_error hd ht hp] at h; exact absurd h (by simp)
      | ok p =>
        cases hq : model.predict sd with
        | error c => rw [run_predict_error hd ht hp hq] at h; exact absurd h (by simp)
        | ok pred =>
          rw [run_success hd ht hp hq] at h
          simp only [Except.ok.injEq] at h
          rw [← h]
          unfold classLabel
          by_cases hone : pred = 1
          · left; simp [hone]
          · right; simp [hone]

/-- Witness for C3: a concrete successful run carries one of the two
labels. -/
theorem C3_label_mapping_witness :
    (⟨"治疗浓度 (≥3 μg/ml)", (4:ℚ)/5⟩ : PredictionResult).cls = "治疗浓度 (≥3 μg/ml)" ∨
    (⟨"治疗浓度 (≥3 μg/ml)", (4:ℚ)/5⟩ : PredictionResult).cls = "低浓度 (<3 μg/ml)" :=
  C3_label_mapping.2.2 exampleInputs fixtureScaler fixtureClf
    ⟨"治疗浓度 (≥3 μg/ml)", 4/5⟩ (by rfl)

/-- Claim C4: on the concrete thirteen-feature example input, with a
fixture classifier returning `predict() = 1` and
`predict_proba() = [0.2, 0.8]`, the pipeline returns the therapeutic
label with confidence 0.8. -/
theorem C4_end_to_end :
    (run exampleInputs fixtureScaler fixtureClf).1 =
      Except.ok ⟨"治疗浓度 (≥3 μg/ml)", 4/5⟩ := by rfl

/-- Claim C5: when all thirteen contracted keys are present but some
value is non-numeric, the pipeline fails with the coercion exception
raised by `astype(float)`, and neither the normalizer's `transform` nor
any classifier method is invoked (the call trace is empty). -/
theorem C5_coercion_failure (inputs : FeatureMap) (scaler : Scaler)
    (model : Classifier) (k s : String)
    (hall : feature_order.filter (fun j => (lookup inputs j).isNone) = [])
    (hk : k ∈ feature_order)
    (hv : lookup inputs k = some (.nonNumeric s)) :
    isCoercionError (run inputs scaler model).1 = true ∧
    (run inputs scaler model).2 = [] := by
  have hmem : Value.nonNumeric s ∈ feature_order.filterMap (lookup inputs) :=
    List.mem_filterMap.mpr ⟨k, hk, hv⟩
  obtain ⟨w, hw⟩ := coerceAll_of_mem_nonNumeric _ hmem
  have hdata : input_data inputs = .error (.typeCoercion w) := by
    simp [input_data, selectColumns, hall, hw]
  constructor
  · rw [run_input_error scaler model hdata]; rfl
  · rw [run_input_error scaler model hdata]

/-- Witness for C5: the example input with `Fg` replaced by the string
`"abc"` makes the pipeline fail at coercion with no component calls. -/
theorem C5_coercion_failure_witness :
    lookup badInputs "Fg" = some (Value.nonNumeric "abc") ∧
    isCoercionError (run badInputs fixtureScaler fixtureClf).1 = true ∧
    (run badInputs fixtureScaler fixtureClf).2 = [] :=
  ⟨rfl,
   (C5_coercion_failure badInputs fixtureScaler fixtureClf "Fg" "abc"
      (by decide) (by decide) (by decide)).1,
   (C5_coercion_failure badInputs fixtureScaler fixtureClf "Fg" "abc"
      (by decide) (by decide) (by decide)).2⟩

/-- Counterexample to claim C6: a mapping whose key set strictly contains
the thirteen contracted keys (it has the extra key `"Extra"`) is not
rejected: the pipeline predicts from it successfully, silently ignoring
the extra key. -/
theorem C6_counterexample :
    ("Extra" ∈ feature_order → False) ∧
    lookup extraKeyInputs "Extra" = some (.num 1) ∧
    (run extraKeyInputs fixtureScaler fixtureClf).1 =
      Except.ok ⟨"治疗浓度 (≥3 μg/ml)", 4/5⟩ :=
  ⟨by decide, rfl, rfl⟩

/-- Claim C6 as amended: the pipeline rejects any mapping that is missing
one of the thirteen contracted keys (column selection raises `KeyError`
before any component call), but it does not reject extra keys — the
pipeline reads the mapping only at the thirteen contracted keys, so
extra keys are silently ignored and prediction proceeds. -/
theorem C6_amended_validation :
    (∀ (inputs : FeatureMap) (scaler : Scaler) (model : Classifier) (k : String),
        k ∈ feature_order → lookup inputs k = none →
        isKeyError (run inputs scaler model).1 = true ∧
        (run inputs scaler model).2 = []) ∧
    (∀ (inputs inputs' : FeatureMap) (scaler : Scaler) (model : Classifier),
        (∀ k ∈ feature_order, lookup inputs k = lookup inputs' k) →
        run inputs scaler model = run inputs' scaler model) := by
  constructor
  · intro inputs scaler model k hk hnone
    have hmem : k ∈ feature_order.filter (fun j => (lookup inputs j).isNone) :=
      List.mem_filter.mpr ⟨hk, by simp [hnone]⟩
    cases hfil : feature_order.filter (fun j => (lookup inputs j).isNone) with
    | nil => rw [hfil] at hmem; exact absurd hmem (List.not_mem_nil _)
    | cons a l =>
      have hdata : input_data inputs = .error (.keyError (a :: l)) := by
        simp [input_data, selectColumns, hfil]
      constructor
      · rw [run_input_error scaler model hdata]; rfl
      · rw [run_input_error scaler model hdata]
  · intro inputs inputs' scaler model h
    exact run_congr scaler model h

/-- Witness for the amended C6: dropping `Fg` makes the pipeline fail
with a `KeyError` and no component calls, while appending the extra key
`"Extra"` leaves the run unchanged. -/
theorem C6_amended_validation_witness :
    (isKeyError (run missingInputs fixtureScaler fixtureClf).1 = true ∧
     (run missingInputs fixtureScaler fixtureClf).2 = []) ∧
    run extraKeyInputs fixtureScaler fixtureClf =
      run exampleInputs fixtureScaler fixtureClf :=
  ⟨C6_amended_validation.1 missingInputs fixtureScaler fixtureClf "Fg"
      (by decide) (by decide),
   C6_amended_validation.2 extraKeyInputs exampleInputs fixtureScaler fixtureClf
      (by intro k hk; fin_cases hk <;> rfl)⟩

/-- Claim C7: when neither configured artifact file exists, `joblib.load`
raises `FileNotFoundError`, and `load_components` surfaces the dedicated
(typed) missing-artifact error whose user-facing payload names both
artifact files — not the generic load-failure error. -/
theorem C7_missing_artifacts (store : Store)
    (h1 : store.loadModel = .fileNotFound)
    (h2 : store.loadScaler = .fileNotFound) :
    load_components store = ((none, none),
      some (.artifactNotFound "ifx_ensemble_model.pkl" "ifx_scaler.pkl")) := by
  unfold load_components
  rw [h1]

/-- Witness for C7: the concrete empty store. -/
theorem C7_missing_artifacts_witness :
    emptyStore.loadModel = LoadOutcome.fileNotFound ∧
    emptyStore.loadScaler = LoadOutcome.fileNotFound ∧
    load_components emptyStore = ((none, none),
      some (.artifactNotFound "ifx_ensemble_model.pkl" "ifx_scaler.pkl")) :=
  ⟨rfl, rfl, C7_missing_artifacts emptyStore rfl rfl⟩

/-- Claim C8: every exception raised by the normalizer or the classifier
inside the pipeline is caught at the handler boundary and converted to a
displayable error wrapping the underlying cause, with the session state
untouched; the handler returns normally, so no such exception propagates
as an unhandled fault. -/
theorem C8_boundary_catches (inputs : FeatureMap) (scaler : Scaler)
    (model : Classifier) (st : SessionState) (e : PipeErr)
    (herr : (run inputs scaler model).1 = .error e)
    (hcomp : isComponentError e = true) :
    onPredict (some model, some scaler) inputs st =
      (st, some (.predictionError e)) :=
  onPredict_error st herr

/-- Witness for C8: a normalizer whose `transform` raises is caught and
wrapped, leaving the session state untouched. -/
theorem C8_boundary_catches_witness :
    (run exampleInputs failScaler fixtureClf).1 =
      Except.error (.transformError "boom") ∧
    isComponentError (.transformError "boom") = true ∧
    onPredict (some fixtureClf, some failScaler) exampleInputs ⟨none⟩ =
      (⟨none⟩, some (.predictionError (.transformError "boom"))) :=
  ⟨rfl, rfl,
   C8_boundary_catches exampleInputs failScaler fixtureClf ⟨none⟩
      (.transformError "boom") rfl rfl⟩

/-- Claim C9: calling the cached loader N ≥ 1 times within one process
performs the underlying deserialization exactly once, and every call
returns the same cached pair of artifacts. -/
theorem C9_idempotent_load (store : Store) (n : ℕ) (h : 1 ≤ n) :
    (loadN store n ⟨none, 0⟩).2.loadCount = 1 ∧
    (loadN store n ⟨none, 0⟩).1 = List.replicate n (load_components store).1 := by
  obtain ⟨m, rfl⟩ : ∃ m, n = m + 1 := ⟨n - 1, (Nat.succ_pred_eq_of_pos h).symm⟩
  have hstep : loadN store (m + 1) ⟨none, 0⟩ =
      ((load_components store).1 ::
        (loadN store m ⟨some (load_components store).1, 1⟩).1,
       (loadN store m ⟨some (load_components store).1, 1⟩).2) := by
    simp [loadN, cachedLoad]
  rw [hstep, loadN_cached store (load_components store).1 1 m]
  exact ⟨rfl, rfl⟩

/-- Witness for C9: three calls against the fixture store deserialize
once and all return the loaded pair. -/
theorem C9_idempotent_load_witness :
    (loadN fixtureStore 3 ⟨none, 0⟩).2.loadCount = 1 ∧
    (loadN fixtureStore 3 ⟨none, 0⟩).1 =
      List.replicate 3 (load_components fixtureStore).1 :=
  C9_idempotent_load fixtureStore 3 (by decide)

/-- Claim C10: the stored prediction is updated only when the whole
pipeline succeeds; when any step raises (and when the artifacts are not
loaded), the previously stored result is left exactly as it was. -/
theorem C10_state_preserved (model : Classifier) (scaler : Scaler)
    (inputs : FeatureMap) (st : SessionState) :
    (∀ e, (run inputs scaler model).1 = .error e →
      (onPredict (some model, some scaler) inputs st).1 = st) ∧
    (∀ r, (run inputs scaler model).1 = .ok r →
      (onPredict (some model, some scaler) inputs st).1 = ⟨some r⟩) ∧
    (onPredict (none, none) inputs st).1 = st := by
  refine ⟨?_, ?_, rfl⟩
  · intro e he
    rw [onPredict_error st he]
  · intro r hr
    rw [onPredict_ok st hr]

/-- Witness for C10: a failing normalizer leaves an earlier stored
result untouched. -/
theorem C10_state_preserved_witness :
    (onPredict (some fixtureClf, some failScaler) exampleInputs
        ⟨some ⟨"低浓度 (<3 μg/ml)", 1/10⟩⟩).1 =
      ⟨some ⟨"低浓度 (<3 μg/ml)", 1/10⟩⟩ :=
  (C10_state_preserved fixtureClf failScaler exampleInputs
      ⟨some ⟨"低浓度 (<3 μg/ml)", 1/10⟩⟩).1
    (.transformError "boom") rfl

end IFX
